import Mathlib

/-!
Shallow embedding of the Trip Decision Engine of the Bengaluru commute
application: the regulatory rule engine (`src/app/rule_engine.py`), the
derived prediction metrics (`src/app/traffic_model.py`), the feature
builder and cost/trip composition logic (`src/app/traffic_app.py`), and
the distance helpers (`src/app/route_utils.py`).  Python floats are
modelled as rationals, Python dicts as association lists, and the
Streamlit script's straight-line orchestration as a pure pipeline
function that also records which pieces of work were performed.
-/

/-! ## Rule engine (src/app/rule_engine.py) -/

/-- Mirrors the `RouteContext` dataclass. -/
structure RouteContext where
  area : String
  road : String
  vehicle_type : String
  planned_hour : ℕ
  day_of_week : ℕ
deriving DecidableEq, Repr

/-- Mirrors the `Rule` dataclass. -/
structure Rule where
  name : String
  description : String
  restricted_areas : List String
  restricted_roads : List String
  restricted_vehicle_types : List String
  start_hour : ℕ
  end_hour : ℕ
  days : List ℕ
  recommendation : String
deriving DecidableEq, Repr

/-- Mirrors `Rule.applies`: a rule applies iff all five predicates hold;
an empty predicate list places no restriction on its dimension. -/
def Rule.applies (r : Rule) (ctx : RouteContext) : Bool :=
  (r.restricted_areas.isEmpty || r.restricted_areas.contains ctx.area) &&
  (r.restricted_roads.isEmpty || r.restricted_roads.contains ctx.road) &&
  (r.restricted_vehicle_types.isEmpty || r.restricted_vehicle_types.contains ctx.vehicle_type) &&
  (decide (r.start_hour ≤ ctx.planned_hour) && decide (ctx.planned_hour < r.end_hour)) &&
  (r.days.isEmpty || r.days.contains ctx.day_of_week)

/-- Mirrors the `CBD_HEAVY_VEHICLE_BAN` rule constant. -/
def CBD_HEAVY_VEHICLE_BAN : Rule :=
  { name := "CBD heavy vehicle curfew"
  , description := "Heavy commercial vehicles above 3T banned inside core CBD during peak windows as per Bengaluru Traffic Police notifications."
  , restricted_areas := ["M.G. Road", "Indiranagar", "Koramangala", "Jayanagar"]
  , restricted_roads := []
  , restricted_vehicle_types := ["LCV", "MHCV", "HCV"]
  , start_hour := 8
  , end_hour := 21
  , days := [0, 1, 2, 3, 4]
  , recommendation := "Schedule dock transfers pre-08:00 or post-21:00, or hand over to micro-hubs." }

/-- Mirrors the `NIGHT_ENTRY_ONLY` rule constant. -/
def NIGHT_ENTRY_ONLY : Rule :=
  { name := "Outer Ring night entry"
  , description := "Entry for vehicles over 16T limited to 22:00-06:00 beyond ORR toll plazas."
  , restricted_areas := ["Hebbal", "Yeshwanthpur"]
  , restricted_roads := ["Hebbal Flyover", "Tumkur Road"]
  , restricted_vehicle_types := ["MHCV", "HCV"]
  , start_hour := 6
  , end_hour := 22
  , days := []
  , recommendation := "Hold at peripheral yards and use relay fleets during daylight hours." }

/-- Mirrors the `SCHOOL_ZONE_CAP` rule constant. -/
def SCHOOL_ZONE_CAP : Rule :=
  { name := "School zone speed cap"
  , description := "30 km/h cap applies 07:30-10:00 and 13:30-16:00 on school corridors."
  , restricted_areas := ["Indiranagar", "Koramangala"]
  , restricted_roads := ["CMH Road", "Sarjapur Road"]
  , restricted_vehicle_types := ["LCV", "MHCV", "HCV"]
  , start_hour := 7
  , end_hour := 16
  , days := [0, 1, 2, 3, 4, 5]
  , recommendation := "Buffer +12 minutes in ETA or reroute via parallel collectors." }

/-- Mirrors the `BUS_PRIORITY_LANES` rule constant. -/
def BUS_PRIORITY_LANES : Rule :=
  { name := "Bus priority lane"
  , description := "Dedicated BMTC priority lanes restrict loading/unloading during commute peaks."
  , restricted_areas := ["Whitefield"]
  , restricted_roads := ["ITPL Main Road"]
  , restricted_vehicle_types := ["LCV", "MHCV"]
  , start_hour := 7
  , end_hour := 11
  , days := [0, 1, 2, 3, 4]
  , recommendation := "Switch to electric vans or schedule between 11:00-15:00." }

/-- Mirrors the `ACTIVE_RULES` registry list. -/
def ACTIVE_RULES : List Rule :=
  [CBD_HEAVY_VEHICLE_BAN, NIGHT_ENTRY_ONLY, SCHOOL_ZONE_CAP, BUS_PRIORITY_LANES]

/-- Mirrors `check_route`: the sublist of active rules that apply to the context. -/
def check_route (ctx : RouteContext) : List Rule :=
  ACTIVE_RULES.filter (fun rule => rule.applies ctx)

/-- Mirrors `suggest_vehicle_type` with its fixed tonnage breakpoints. -/
def suggest_vehicle_type (payload_tons : ℚ) : String :=
  if payload_tons ≤ 3 / 2 then ("Mini")
  else if payload_tons ≤ 7 / 2 then ("LCV")
  else if payload_tons ≤ 15 / 2 then ("MHCV")
  else ("HCV")

/-- Mirrors `resolve_vehicle_type`; the Python `or` treats `None` and the
empty string as falsy, falling back to the suggestion. -/
def resolve_vehicle_type (user_choice : Option String) (payload_tons : ℚ) : String :=
  match user_choice with
  | none => suggest_vehicle_type payload_tons
  | some c => if c = "" then suggest_vehicle_type payload_tons else c

/-- Index of a vehicle class in the order Mini < LCV < MHCV < HCV used by
the spec's monotonicity property (any other string is placed last). -/
def vehicleClassIndex (v : String) : ℕ :=
  if v = "Mini" then 0
  else if v = "LCV" then 1
  else if v = "MHCV" then 2
  else if v = "HCV" then 3
  else 4

/-! ## Association lists modelling Python dicts -/

/-- Python dict assignment on an association list: replaces the value of an
existing key in place, otherwise appends the new key at the end. -/
def dictSet {α : Type} : List (String × α) → String → α → List (String × α)
  | [], k, v => [(k, v)]
  | p :: rest, k, v => if p.1 = k then (k, v) :: rest else p :: dictSet rest k v

/-- Python dict lookup on an association list. -/
def dictGet {α : Type} : List (String × α) → String → Option α
  | [], _ => none
  | p :: rest, k => if p.1 = k then some p.2 else dictGet rest k

/-- Mirrors the dict comprehension keying rules by `rule.name`
(`traffic_app.py` line 310): later rules with a duplicate name overwrite
the earlier entry, first-insertion order is kept. -/
def rules_by_name (rs : List Rule) : List (String × Rule) :=
  rs.foldl (fun acc r => dictSet acc r.name r) []

/-- Mirrors `active_restrictions`: the deduplicated-by-name union of the
rules matched at the start and destination contexts. -/
def active_restrictions (start_ctx dest_ctx : RouteContext) : List Rule :=
  (rules_by_name (check_route start_ctx ++ check_route dest_ctx)).map Prod.snd

/-! ## Derived prediction metrics (src/app/traffic_model.py) -/

/-- Linear interpolation step of `np.interp` once `x` is past the first
control point: walk the remaining points, interpolating inside the first
bracketing segment and clamping to the last ordinate beyond the range. -/
def np_interp_go (x : ℚ) : ℚ × ℚ → List (ℚ × ℚ) → ℚ
  | p, [] => p.2
  | p, q :: rest =>
      if x ≤ q.1 then p.2 + (x - p.1) * (q.2 - p.2) / (q.1 - p.1)
      else np_interp_go x q rest

/-- `np.interp x xp fp` for strictly increasing control points, with the
point lists fused into a list of pairs; clamps flat outside the range. -/
def np_interp (x : ℚ) : List (ℚ × ℚ) → ℚ
  | [] => 0
  | p :: rest => if x ≤ p.1 then p.2 else np_interp_go x p rest

/-- The congestion band of `predict_metrics`: `np.interp` over the control
points (1.0, 30), (1.2, 55), (1.4, 80), (1.6, 100). -/
def congestion_band (travel_time_index : ℚ) : ℚ :=
  np_interp travel_time_index [(1, 30), (6 / 5, 55), (7 / 5, 80), (8 / 5, 100)]

/-- Python's banker's rounding (`round` ties to even) on a rational. -/
def roundHalfEven (q : ℚ) : ℤ :=
  if q - ⌊q⌋ < 1 / 2 then ⌊q⌋
  else if (1 : ℚ) / 2 < q - ⌊q⌋ then ⌊q⌋ + 1
  else if ⌊q⌋ % 2 = 0 then ⌊q⌋ else ⌊q⌋ + 1

/-- Python `round(q, 1)`. -/
def pyRound1 (q : ℚ) : ℚ := (roundHalfEven (10 * q) : ℚ) / 10

/-- The `implied_congestion_pct` field of `predict_metrics`:
`round(np.interp(...), 1)`. -/
def implied_congestion_pct (travel_time_index : ℚ) : ℚ :=
  pyRound1 (congestion_band travel_time_index)

/-- The `eta_modifier_pct` field of `predict_metrics` before rounding. -/
def eta_modifier_pct (travel_time_index : ℚ) : ℚ :=
  max 0 ((travel_time_index - 1) * 55)

/-! ## Cost tables and trip composition (src/app/traffic_app.py) -/

/-- `VEHICLE_COST_PER_KM.get(v, 40.0)`. -/
def vehicle_cost_per_km (v : String) : ℚ :=
  if v = "Mini" then 28
  else if v = "LCV" then 42
  else if v = "MHCV" then 58
  else if v = "HCV" then 72
  else 40

/-- `VEHICLE_COST_PER_HOUR.get(v, 400.0)`. -/
def vehicle_cost_per_hour (v : String) : ℚ :=
  if v = "Mini" then 320
  else if v = "LCV" then 450
  else if v = "MHCV" then 580
  else if v = "HCV" then 720
  else 400

/-- `VEHICLE_TIME_FACTOR.get(v, 1.0)`. -/
def vehicle_time_factor (v : String) : ℚ :=
  if v = "Mini" then 1
  else if v = "LCV" then 27 / 25
  else if v = "MHCV" then 59 / 50
  else if v = "HCV" then 32 / 25
  else 1

/-- `PRIORITY_SURCHARGE.get(p, 1.0)`, keyed by the UI priority labels. -/
def priority_surcharge (p : String) : ℚ :=
  if p = "Standard (4h window)" then 1
  else if p = "Express (2h window)" then 6 / 5
  else if p = "Night linehaul" then 9 / 10
  else 1

/-- `distance_cost = distance_km * VEHICLE_COST_PER_KM.get(vehicle_type, 40.0)`. -/
def distance_cost (distance_km : ℚ) (vehicle_type : String) : ℚ :=
  distance_km * vehicle_cost_per_km vehicle_type

/-- `time_cost = (adjusted_minutes / 60.0) * VEHICLE_COST_PER_HOUR.get(vehicle_type, 400.0)`. -/
def time_cost (adjusted_minutes : ℚ) (vehicle_type : String) : ℚ :=
  adjusted_minutes / 60 * vehicle_cost_per_hour vehicle_type

/-- `estimated_cost = (distance_cost + time_cost) * priority_multiplier`. -/
def estimated_cost (distance_km adjusted_minutes : ℚ) (vehicle_type service_priority : String) : ℚ :=
  (distance_cost distance_km vehicle_type + time_cost adjusted_minutes vehicle_type) *
    priority_surcharge service_priority

/-- `base_minutes = (distance_km / avg_speed) * 60`. -/
def base_minutes (distance_km avg_speed : ℚ) : ℚ :=
  distance_km / avg_speed * 60

/-- `adjusted_minutes = base_minutes * route_tti * vehicle_factor`. -/
def adjusted_minutes (distance_km avg_speed route_tti : ℚ) (vehicle_type : String) : ℚ :=
  base_minutes distance_km avg_speed * route_tti * vehicle_time_factor vehicle_type

/-- The full cost of a trip as composed in the script, as a function of the
inputs the script holds fixed elsewhere. -/
def total_cost (distance_km avg_speed route_tti : ℚ) (vehicle_type service_priority : String) : ℚ :=
  estimated_cost distance_km (adjusted_minutes distance_km avg_speed route_tti vehicle_type)
    vehicle_type service_priority

/-- Modelled from the spec: the priority tiers named by the spec's cost
formula (standard, express, night). -/
inductive PriorityTier
  | standard
  | express
  | night
deriving DecidableEq, Repr

/-- Modelled from the spec: the surcharge table standard=1.0, express=1.2,
night=0.9. -/
def specSurcharge : PriorityTier → ℚ
  | PriorityTier.standard => 1
  | PriorityTier.express => 6 / 5
  | PriorityTier.night => 9 / 10

/-- Modelled from the spec: `cost = (distance_km x per_km_rate + (adjusted_minutes/60)
x per_hour_rate) x priority_surcharge`, written exactly after the spec's words. -/
def specCost (distance_km adjusted : ℚ) (vehicle_type : String) (tier : PriorityTier) : ℚ :=
  (distance_km * vehicle_cost_per_km vehicle_type +
      adjusted / 60 * vehicle_cost_per_hour vehicle_type) * specSurcharge tier

/-! ## Distance helpers (src/app/route_utils.py) -/

/-- Mirrors `compute_distance_km`, abstracting the WGS84 geodesic solver as
a function giving the distance in metres between two named areas. -/
def compute_distance_km (geodMeters : String → String → ℚ) (start_area end_area : String) :
    Option ℚ :=
  let distance_km := geodMeters start_area end_area / 1000
  if distance_km < 1 / 2 then some (7 / 2) else some distance_km

/-- Python `x or default` on an optional float: `None` and `0.0` are falsy. -/
def pyOrFloat (x : Option ℚ) (dflt : ℚ) : ℚ :=
  match x with
  | none => dflt
  | some v => if v = 0 then dflt else v

/-- The distance the composer feeds into the cost computation:
`route_geom.distance_km or 6.5` (`traffic_app.py` line 332). -/
def trip_distance_km (geodMeters : String → String → ℚ) (start_area end_area : String) : ℚ :=
  pyOrFloat (compute_distance_km geodMeters start_area end_area) (13 / 2)

/-! ## Feature builder (src/app/traffic_app.py, build_feature_payload) -/

/-- A value stored in a dataframe cell or a feature payload. -/
inductive PVal
  | strV (v : String)
  | numV (v : ℚ)
  | intV (v : ℤ)
deriving DecidableEq, Repr

/-- One row of the historical traffic dataframe: the corridor key columns,
the `Date` column (a totally ordered stamp plus its calendar month), and
the remaining telemetry columns by name. -/
structure TrafficRow where
  areaName : String
  roadName : String
  dateStamp : ℕ
  dateMonth : ℕ
  cols : List (String × PVal)
deriving DecidableEq, Repr

/-- Column lookup on a row, modelling `col in snapshot.index` /
`snapshot[col]` for the columns the model schema can mention. -/
def TrafficRow.col (r : TrafficRow) (c : String) : Option PVal :=
  if c = "Area Name" then some (PVal.strV r.areaName)
  else if c = "Road/Intersection Name" then some (PVal.strV r.roadName)
  else dictGet r.cols c

/-- The documented contract of `corridor.sort_values("Date")`: the result
is a permutation of the input, ascending in the `Date` stamp.  With the
default (unstable) quicksort this is all pandas guarantees — in
particular, nothing is pinned about the relative order of rows with equal
dates. -/
def IsDateSortOf (sorted orig : List TrafficRow) : Prop :=
  sorted.Perm orig ∧ sorted.Pairwise (fun a b => a.dateStamp ≤ b.dateStamp)

/-- Mirrors `build_feature_payload`: filter the frame to the (area, road)
corridor, sort it by `Date`, return `none` when it is empty, otherwise
take the last row of the sorted corridor (`iloc[-1]`), copy every schema
column present in the snapshot, then override the query-owned fields
(`Area Name`, `Road/Intersection Name`, `day_of_week`), take `month` from
the snapshot's date and derive `is_weekend` from the query weekday.  The
library sort of `sort_values("Date")` is abstracted as the `sortImpl`
parameter; the theorems assume only its documented contract
(`IsDateSortOf`), since the code's default quicksort guarantees nothing
further. -/
def build_feature_payload (sortImpl : List TrafficRow → List TrafficRow)
    (df : List TrafficRow) (feature_names : List String)
    (area road : String) (weekday_index : ℕ) :
    Option (List (String × PVal) × TrafficRow) :=
  let corridor := sortImpl (df.filter (fun r => r.areaName == area && r.roadName == road))
  match corridor.getLast? with
  | none => none
  | some snapshot =>
      let base := feature_names.foldl (fun acc c =>
        match snapshot.col c with
        | some v => dictSet acc c v
        | none => acc) []
      let p1 := dictSet base "Area Name" (PVal.strV area)
      let p2 := dictSet p1 "Road/Intersection Name" (PVal.strV road)
      let p3 := dictSet p2 "day_of_week" (PVal.intV weekday_index)
      let p4 := dictSet p3 "month" (PVal.intV snapshot.dateMonth)
      let p5 := dictSet p4 "is_weekend" (PVal.intV (if 5 ≤ weekday_index then 1 else 0))
      some (p5, snapshot)

/-! ## The request pipeline (src/app/traffic_app.py, lines 223-352) -/

/-- The units of work the script performs for one request, in program
order: two feature builds, two model predictions, the rule check, the
cost composition, and the production of the final trip. -/
inductive Step
  | featureBuild
  | predict
  | ruleCheck
  | costCompose
  | tripProduce
deriving DecidableEq, Repr

/-- The possible outcomes of one request. -/
inductive Outcome
  | insufficientData
  | blocked (rules : List Rule)
  | trip (cost : ℚ)
deriving DecidableEq, Repr

/-- The inputs of one request that the surrounding UI supplies.  The two
feature builds are summarised by whether they found a payload, and the
opaque trained regressor by the travel-time indices it returns. -/
structure PipelineInput where
  start_found : Bool
  dest_found : Bool
  start_ctx : RouteContext
  dest_ctx : RouteContext
  start_speed : ℚ
  dest_speed : ℚ
  start_tti : ℚ
  dest_tti : ℚ
  vehicle_type : String
  service_priority : String
  route_distance : Option ℚ
deriving DecidableEq, Repr

/-- The script's straight-line orchestration in program order: feature
build x 2, stop on missing data, prediction x 2, rule check, stop with
the violated rules when any rule matched (before any cost work), else
cost composition and the trip.  Returns the trace of performed work
together with the outcome. -/
def runPipeline (inp : PipelineInput) : List Step × Outcome :=
  if !inp.start_found || !inp.dest_found then
    ([Step.featureBuild, Step.featureBuild], Outcome.insufficientData)
  else
    let active := active_restrictions inp.start_ctx inp.dest_ctx
    if !active.isEmpty then
      ([Step.featureBuild, Step.featureBuild, Step.predict, Step.predict, Step.ruleCheck],
        Outcome.blocked active)
    else
      let avg_speed := max ((inp.start_speed + inp.dest_speed) / 2) 10
      let dist := pyOrFloat inp.route_distance (13 / 2)
      let route_tti := (inp.start_tti + inp.dest_tti) / 2
      ([Step.featureBuild, Step.featureBuild, Step.predict, Step.predict, Step.ruleCheck,
          Step.costCompose, Step.tripProduce],
        Outcome.trip (total_cost dist avg_speed route_tti inp.vehicle_type inp.service_priority))

/-- The end-to-end scenario context of the spec: M.G. Road, an MHCV, 09:00
on a Monday. -/
def cbdCtx : RouteContext :=
  { area := "M.G. Road", road := "Anil Kumble Circle", vehicle_type := "MHCV"
  , planned_hour := 9, day_of_week := 0 }

/-- A complete request around `cbdCtx` with data available at both ends. -/
def cbdInput : PipelineInput :=
  { start_found := true, dest_found := true, start_ctx := cbdCtx, dest_ctx := cbdCtx
  , start_speed := 20, dest_speed := 20, start_tti := 1, dest_tti := 1
  , vehicle_type := "MHCV", service_priority := "Standard (4h window)"
  , route_distance := some 10 }

/-! ## Helper lemmas -/

theorem dictGet_dictSet_same {α : Type} (d : List (String × α)) (k : String) (v : α) :
    dictGet (dictSet d k v) k = some v := by
  induction d with
  | nil => simp [dictSet, dictGet]
  | cons p rest ih =>
      by_cases hp : p.1 = k
      · simp [dictSet, dictGet, hp]
      · simp [dictSet, dictGet, hp, ih]

theorem dictGet_dictSet_ne {α : Type} (d : List (String × α)) (k k' : String) (v : α)
    (h : k' ≠ k) : dictGet (dictSet d k' v) k = dictGet d k := by
  induction d with
  | nil => simp [dictSet, dictGet, h]
  | cons p rest ih =>
      rcases eq_or_ne p.1 k' with hp | hp
      · have hpk : p.1 ≠ k := by rw [hp]; exact h
        simp [dictSet, dictGet, hp, h, hpk]
      · rcases eq_or_ne p.1 k with hk | hk
        · simp [dictSet, dictGet, hp, hk, Ne.symm h]
        · simp [dictSet, dictGet, hp, hk, ih]

theorem mem_dictSet {α : Type} (d : List (String × α)) (k : String) (v : α) (p : String × α)
    (hp : p ∈ dictSet d k v) : p ∈ d ∨ p = (k, v) := by
  induction d with
  | nil =>
      simp [dictSet] at hp
      exact Or.inr hp
  | cons q rest ih =>
      by_cases hq : q.1 = k
      · simp [dictSet, hq] at hp
        rcases hp with h | h
        · exact Or.inr h
        · exact Or.inl (List.mem_cons_of_mem _ h)
      · simp [dictSet, hq] at hp
        rcases hp with h | h
        · exact Or.inl (by simp [h])
        · rcases ih h with h' | h'
          · exact Or.inl (List.mem_cons_of_mem _ h')
          · exact Or.inr h'

theorem dictGet_dictSet_isSome {α : Type} (d : List (String × α)) (k k' : String) (v : α)
    (h : (dictGet d k).isSome) : (dictGet (dictSet d k' v) k).isSome := by
  rcases eq_or_ne k' k with rfl | hne
  · rw [dictGet_dictSet_same]; rfl
  · rw [dictGet_dictSet_ne _ _ _ _ hne]; exact h

theorem dictGet_some_mem {α : Type} (d : List (String × α)) (k : String) (v : α)
    (h : dictGet d k = some v) : (k, v) ∈ d := by
  induction d with
  | nil => simp [dictGet] at h
  | cons p rest ih =>
      obtain ⟨a, b⟩ := p
      by_cases hp : a = k
      · simp [dictGet, hp] at h
        simp [hp, h]
      · simp [dictGet, hp] at h
        exact List.mem_cons_of_mem _ (ih h)

theorem mem_map_fst_dictSet {α : Type} (d : List (String × α)) (k : String) (v : α) (a : String)
    (ha : a ∈ (dictSet d k v).map Prod.fst) : a ∈ d.map Prod.fst ∨ a = k := by
  simp only [List.mem_map] at ha ⊢
  obtain ⟨p, hp, rfl⟩ := ha
  rcases mem_dictSet _ _ _ _ hp with h | h
  · exact Or.inl ⟨p, h, rfl⟩
  · rw [h]
    exact Or.inr rfl

theorem nodup_map_fst_dictSet {α : Type} (d : List (String × α)) (k : String) (v : α)
    (h : (d.map Prod.fst).Nodup) : ((dictSet d k v).map Prod.fst).Nodup := by
  induction d with
  | nil => simp [dictSet]
  | cons p rest ih =>
      rw [List.map_cons, List.nodup_cons] at h
      by_cases hp : p.1 = k
      · simp only [dictSet]
        rw [if_pos hp, List.map_cons, List.nodup_cons]
        exact ⟨by rw [← hp]; exact h.1, h.2⟩
      · simp only [dictSet]
        rw [if_neg hp, List.map_cons, List.nodup_cons]
        refine ⟨fun ha => ?_, ih h.2⟩
        rcases mem_map_fst_dictSet rest k v p.1 ha with h' | h'
        · exact h.1 h'
        · exact hp h'

theorem mem_foldl_rules (rs : List Rule) (d : List (String × Rule)) (p : String × Rule)
    (hp : p ∈ rs.foldl (fun acc r => dictSet acc r.name r) d) :
    p ∈ d ∨ (p.2 ∈ rs ∧ p.1 = p.2.name) := by
  induction rs generalizing d with
  | nil => exact Or.inl hp
  | cons r rest ih =>
      rw [List.foldl_cons] at hp
      rcases ih (dictSet d r.name r) hp with h | h
      · rcases mem_dictSet _ _ _ _ h with h' | h'
        · exact Or.inl h'
        · right
          rw [h']
          exact ⟨List.mem_cons_self _ _, rfl⟩
      · exact Or.inr ⟨List.mem_cons_of_mem _ h.1, h.2⟩

theorem foldl_rules_isSome (rs : List Rule) (d : List (String × Rule)) (k : String)
    (h : (dictGet d k).isSome) :
    (dictGet (rs.foldl (fun acc r => dictSet acc r.name r) d) k).isSome := by
  induction rs generalizing d with
  | nil => exact h
  | cons r rest ih =>
      rw [List.foldl_cons]
      exact ih _ (dictGet_dictSet_isSome _ _ _ _ h)

theorem foldl_rules_complete (rs : List Rule) (r : Rule) (hr : r ∈ rs)
    (d : List (String × Rule)) :
    (dictGet (rs.foldl (fun acc r => dictSet acc r.name r) d) r.name).isSome := by
  induction rs generalizing d with
  | nil => cases hr
  | cons a rest ih =>
      rw [List.foldl_cons]
      rcases List.mem_cons.mp hr with rfl | h
      · exact foldl_rules_isSome rest _ _ (by rw [dictGet_dictSet_same]; rfl)
      · exact ih h _

theorem foldl_rules_nodup (rs : List Rule) (d : List (String × Rule))
    (h : (d.map Prod.fst).Nodup) :
    ((rs.foldl (fun acc r => dictSet acc r.name r) d).map Prod.fst).Nodup := by
  induction rs generalizing d with
  | nil => exact h
  | cons r rest ih =>
      rw [List.foldl_cons]
      exact ih _ (nodup_map_fst_dictSet _ _ _ h)

theorem getLast?_mem_self (l : List TrafficRow) (a : TrafficRow)
    (h : l.getLast? = some a) : a ∈ l := by
  induction l with
  | nil => simp at h
  | cons x rest ih =>
      cases rest with
      | nil =>
          simp only [List.getLast?_singleton, Option.some_inj] at h
          subst h
          exact List.mem_cons_self _ _
      | cons y t =>
          rw [List.getLast?_cons_cons] at h
          exact List.mem_cons_of_mem _ (ih h)

theorem pairwise_le_getLast (l : List TrafficRow) (a : TrafficRow)
    (hp : l.Pairwise (fun p q => p.dateStamp ≤ q.dateStamp)) (h : l.getLast? = some a) :
    ∀ x ∈ l, x.dateStamp ≤ a.dateStamp := by
  induction l with
  | nil => intro x hx; cases hx
  | cons y rest ih =>
      rw [List.pairwise_cons] at hp
      intro x hx
      cases rest with
      | nil =>
          have hya : y = a := by simpa using h
          rcases List.mem_cons.mp hx with rfl | hx'
          · rw [hya]
          · cases hx'
      | cons z t =>
          rw [List.getLast?_cons_cons] at h
          rcases List.mem_cons.mp hx with rfl | hx'
          · exact hp.1 a (getLast?_mem_self _ _ h)
          · exact ih hp.2 h x hx'

theorem perm_eq_nil_iff {α : Type} {l₁ l₂ : List α} (h : l₁.Perm l₂) :
    l₁ = [] ↔ l₂ = [] := by
  constructor
  · intro hh
    subst hh
    exact List.eq_nil_of_length_eq_zero h.length_eq.symm
  · intro hh
    subst hh
    exact List.eq_nil_of_length_eq_zero h.length_eq

theorem vehicle_cost_per_km_pos (v : String) : 0 < vehicle_cost_per_km v := by
  unfold vehicle_cost_per_km
  split_ifs <;> norm_num

theorem vehicle_cost_per_hour_pos (v : String) : 0 < vehicle_cost_per_hour v := by
  unfold vehicle_cost_per_hour
  split_ifs <;> norm_num

theorem vehicle_time_factor_pos (v : String) : 0 < vehicle_time_factor v := by
  unfold vehicle_time_factor
  split_ifs <;> norm_num

theorem priority_surcharge_pos (p : String) : 0 < priority_surcharge p := by
  unfold priority_surcharge
  split_ifs <;> norm_num

theorem roundHalfEven_intCast (n : ℤ) : roundHalfEven (n : ℚ) = n := by
  norm_num [roundHalfEven]

theorem pyRound1_intDiv10 (n : ℤ) : pyRound1 ((n : ℚ) / 10) = (n : ℚ) / 10 := by
  have h : (10 : ℚ) * ((n : ℚ) / 10) = (n : ℚ) := by ring
  rw [pyRound1, h, roundHalfEven_intCast]

theorem pyRound1_ofInt (n : ℤ) : pyRound1 (n : ℚ) = n := by
  have h : ((n : ℚ)) = ((10 * n : ℤ) : ℚ) / 10 := by
    push_cast
    ring
  rw [h, pyRound1_intDiv10]

/-! ## Claim theorems -/

/-- C1: a rule applies to a context iff all five predicates hold at once —
membership in each non-empty restriction set (an empty set restricting
nothing), the half-open non-wrapping hour window, and the day set. -/
theorem c1_applies_iff_all_five_predicates (r : Rule) (ctx : RouteContext) :
    r.applies ctx = true ↔
      ((r.restricted_areas = [] ∨ ctx.area ∈ r.restricted_areas) ∧
       (r.restricted_roads = [] ∨ ctx.road ∈ r.restricted_roads) ∧
       (r.restricted_vehicle_types = [] ∨ ctx.vehicle_type ∈ r.restricted_vehicle_types) ∧
       (r.start_hour ≤ ctx.planned_hour ∧ ctx.planned_hour < r.end_hour) ∧
       (r.days = [] ∨ ctx.day_of_week ∈ r.days)) := by
  simp [Rule.applies, List.isEmpty_iff, and_assoc]

/-- C9: when a rule's restriction set on a dimension is empty, `applies`
does not depend on the context's value in that dimension. -/
theorem c9_empty_dimension_independence (r : Rule) (ctx : RouteContext)
    (a ro v : String) (d : ℕ) :
    (r.restricted_areas = [] → r.applies { ctx with area := a } = r.applies ctx) ∧
    (r.restricted_roads = [] → r.applies { ctx with road := ro } = r.applies ctx) ∧
    (r.restricted_vehicle_types = [] →
      r.applies { ctx with vehicle_type := v } = r.applies ctx) ∧
    (r.days = [] → r.applies { ctx with day_of_week := d } = r.applies ctx) := by
  refine ⟨fun h => ?_, fun h => ?_, fun h => ?_, fun h => ?_⟩ <;> simp [Rule.applies, h]

/-- A rule with every restriction set empty, used to exercise C9. -/
def openRule : Rule :=
  { name := "open", description := "", restricted_areas := [], restricted_roads := []
  , restricted_vehicle_types := [], start_hour := 0, end_hour := 24, days := []
  , recommendation := "" }

/-- A base context used to exercise C9. -/
def baseCtx : RouteContext :=
  { area := "Indiranagar", road := "CMH Road", vehicle_type := "LCV"
  , planned_hour := 9, day_of_week := 2 }

theorem c9_empty_dimension_independence_witness :
    (openRule.applies { baseCtx with area := "Hebbal" } = openRule.applies baseCtx) ∧
    (openRule.applies { baseCtx with road := "Tumkur Road" } = openRule.applies baseCtx) ∧
    (openRule.applies { baseCtx with vehicle_type := "HCV" } = openRule.applies baseCtx) ∧
    (openRule.applies { baseCtx with day_of_week := 6 } = openRule.applies baseCtx) :=
  ⟨(c9_empty_dimension_independence openRule baseCtx ("Hebbal") ("Tumkur Road") ("HCV") 6).1 rfl,
   (c9_empty_dimension_independence openRule baseCtx ("Hebbal") ("Tumkur Road") ("HCV") 6).2.1 rfl,
   (c9_empty_dimension_independence openRule baseCtx ("Hebbal") ("Tumkur Road") ("HCV") 6).2.2.1 rfl,
   (c9_empty_dimension_independence openRule baseCtx ("Hebbal") ("Tumkur Road") ("HCV") 6).2.2.2 rfl⟩

/-- C7: `suggest_vehicle_type` is monotone non-decreasing in the payload
with respect to Mini < LCV < MHCV < HCV, and matches the breakpoints
exactly at the boundaries. -/
theorem c7_suggest_vehicle_monotone_breakpoints :
    (∀ x y : ℚ, x ≤ y →
        vehicleClassIndex (suggest_vehicle_type x) ≤ vehicleClassIndex (suggest_vehicle_type y)) ∧
    (∀ x : ℚ,
        (x ≤ 3 / 2 → suggest_vehicle_type x = "Mini") ∧
        (3 / 2 < x → x ≤ 7 / 2 → suggest_vehicle_type x = "LCV") ∧
        (7 / 2 < x → x ≤ 15 / 2 → suggest_vehicle_type x = "MHCV") ∧
        (15 / 2 < x → suggest_vehicle_type x = "HCV")) ∧
    suggest_vehicle_type (3 / 2) = "Mini" ∧ suggest_vehicle_type (151 / 100) = "LCV" := by
  refine ⟨?_, ?_, ?_, ?_⟩
  · intro x y hxy
    unfold suggest_vehicle_type
    split_ifs <;> first | decide | linarith
  · intro x
    refine ⟨fun h => ?_, fun h1 h2 => ?_, fun h1 h2 => ?_, fun h => ?_⟩ <;>
      unfold suggest_vehicle_type <;> split_ifs <;> first | rfl | linarith
  · norm_num [suggest_vehicle_type]
  · norm_num [suggest_vehicle_type]

theorem c7_suggest_vehicle_monotone_breakpoints_witness :
    vehicleClassIndex (suggest_vehicle_type 1) ≤ vehicleClassIndex (suggest_vehicle_type 5) ∧
    suggest_vehicle_type 2 = "LCV" ∧
    suggest_vehicle_type 4 = "MHCV" ∧
    suggest_vehicle_type 8 = "HCV" :=
  ⟨c7_suggest_vehicle_monotone_breakpoints.1 1 5 (by norm_num),
   (c7_suggest_vehicle_monotone_breakpoints.2.1 2).2.1 (by norm_num) (by norm_num),
   (c7_suggest_vehicle_monotone_breakpoints.2.1 4).2.2.1 (by norm_num) (by norm_num),
   (c7_suggest_vehicle_monotone_breakpoints.2.1 8).2.2.2 (by norm_num)⟩

/-- C4: the implied congestion is the piecewise-linear interpolation over
(1.0, 30), (1.2, 55), (1.4, 80), (1.6, 100), clamped flat to 30 below 1.0
and to 100 above 1.6, with 1.3 mapping to 67.5. -/
theorem c4_congestion_clamped_interpolation :
    (∀ x : ℚ, x < 1 → implied_congestion_pct x = 30) ∧
    (∀ x : ℚ, 8 / 5 < x → implied_congestion_pct x = 100) ∧
    (∀ x : ℚ, 1 ≤ x → x ≤ 6 / 5 →
        congestion_band x = 30 + (x - 1) / (6 / 5 - 1) * (55 - 30)) ∧
    (∀ x : ℚ, 6 / 5 ≤ x → x ≤ 7 / 5 →
        congestion_band x = 55 + (x - 6 / 5) / (7 / 5 - 6 / 5) * (80 - 55)) ∧
    (∀ x : ℚ, 7 / 5 ≤ x → x ≤ 8 / 5 →
        congestion_band x = 80 + (x - 7 / 5) / (8 / 5 - 7 / 5) * (100 - 80)) ∧
    congestion_band (13 / 10) = 135 / 2 ∧ implied_congestion_pct (13 / 10) = 135 / 2 := by
  have hlow : ∀ x : ℚ, x ≤ 1 → congestion_band x = 30 := by
    intro x hx
    simp [congestion_band, np_interp, hx]
  refine ⟨?_, ?_, ?_, ?_, ?_, ?_, ?_⟩
  · intro x hx
    rw [implied_congestion_pct, hlow x (le_of_lt hx)]
    have h30 : (30 : ℚ) = ((30 : ℤ) : ℚ) := by norm_num
    rw [h30, pyRound1_ofInt]
  · intro x hx
    have hband : congestion_band x = 100 := by
      simp [congestion_band, np_interp, np_interp_go,
        show ¬x ≤ (1 : ℚ) by linarith, show ¬x ≤ (6 : ℚ) / 5 by linarith,
        show ¬x ≤ (7 : ℚ) / 5 by linarith, show ¬x ≤ (8 : ℚ) / 5 by linarith]
    rw [implied_congestion_pct, hband]
    have h100 : (100 : ℚ) = ((100 : ℤ) : ℚ) := by norm_num
    rw [h100, pyRound1_ofInt]
  · intro x h1 h2
    by_cases hx : x ≤ 1
    · have hx1 : x = 1 := le_antisymm hx h1
      rw [hx1, hlow 1 (le_refl 1)]
      norm_num
    · rw [congestion_band]
      simp only [np_interp, np_interp_go]
      norm_num [hx, h2]
      ring
  · intro x h1 h2
    have hx : ¬x ≤ (1 : ℚ) := by linarith
    by_cases hmid : x ≤ 6 / 5
    · have hx1 : x = 6 / 5 := le_antisymm hmid h1
      rw [congestion_band]
      simp only [np_interp, np_interp_go]
      norm_num [hx, hx1]
    · rw [congestion_band]
      simp only [np_interp, np_interp_go]
      norm_num [hx, hmid, h2]
      ring
  · intro x h1 h2
    have hx : ¬x ≤ (1 : ℚ) := by linarith
    have hx6 : ¬x ≤ (6 : ℚ) / 5 := by linarith
    by_cases hmid : x ≤ 7 / 5
    · have hx1 : x = 7 / 5 := le_antisymm hmid h1
      rw [congestion_band]
      simp only [np_interp, np_interp_go]
      norm_num [hx, hx6, hx1]
    · rw [congestion_band]
      simp only [np_interp, np_interp_go]
      norm_num [hx, hx6, hmid, h2]
      ring
  · norm_num [congestion_band, np_interp, np_interp_go]
  · have h : congestion_band (13 / 10) = (675 : ℤ) / 10 := by
      norm_num [congestion_band, np_interp, np_interp_go]
    rw [implied_congestion_pct, h, pyRound1_intDiv10]
    norm_num

theorem c4_congestion_clamped_interpolation_witness :
    implied_congestion_pct (1 / 2) = 30 ∧
    implied_congestion_pct 2 = 100 ∧
    congestion_band (11 / 10) = 30 + (11 / 10 - 1) / (6 / 5 - 1) * (55 - 30) :=
  ⟨c4_congestion_clamped_interpolation.1 (1 / 2) (by norm_num),
   c4_congestion_clamped_interpolation.2.1 2 (by norm_num),
   c4_congestion_clamped_interpolation.2.2.1 (11 / 10) (by norm_num) (by norm_num)⟩

/-- C5: trip cost is (distance x per-km rate + hours x per-hour rate)
scaled by the priority surcharge (standard 1.0, express 1.2, night 0.9);
for 10 km, an LCV, 30 adjusted minutes and standard priority the parts
are 420 and 225 and the total is 645. -/
theorem c5_cost_composition :
    (∀ (d a : ℚ) (v : String),
        estimated_cost d a v ("Standard (4h window)") = specCost d a v PriorityTier.standard ∧
        estimated_cost d a v ("Express (2h window)") = specCost d a v PriorityTier.express ∧
        estimated_cost d a v ("Night linehaul") = specCost d a v PriorityTier.night) ∧
    distance_cost 10 ("LCV") = 420 ∧
    time_cost 30 ("LCV") = 225 ∧
    estimated_cost 10 30 ("LCV") ("Standard (4h window)") = 645 := by
  refine ⟨fun d a v => ⟨?_, ?_, ?_⟩, ?_, ?_, ?_⟩ <;>
    norm_num [estimated_cost, specCost, distance_cost, time_cost, priority_surcharge,
      specSurcharge, vehicle_cost_per_km, vehicle_cost_per_hour,
      show ¬("Express (2h window)" = "Standard (4h window)") by decide,
      show ¬("Night linehaul" = "Standard (4h window)") by decide,
      show ¬("Night linehaul" = "Express (2h window)") by decide,
      show ¬("LCV" = "Mini") by decide]

/-- C8: holding speed, travel-time indices, vehicle class and priority
fixed, total trip cost is strictly increasing in the distance; holding
everything else fixed it is strictly increasing in the surcharge
multiplier.  The hypotheses record the code's guarantees: the composed
average speed is positive (it is floored at 10) and the travel-time
index is non-negative (the data-model invariant). -/
theorem c8_cost_strictly_monotone :
    (∀ (d₁ d₂ avg tti : ℚ) (v p : String), 0 < avg → 0 ≤ tti → d₁ < d₂ →
        total_cost d₁ avg tti v p < total_cost d₂ avg tti v p) ∧
    (∀ (d avg tti m₁ m₂ : ℚ) (v : String), 0 < d → 0 < avg → 0 ≤ tti → m₁ < m₂ →
        (distance_cost d v + time_cost (adjusted_minutes d avg tti v) v) * m₁ <
        (distance_cost d v + time_cost (adjusted_minutes d avg tti v) v) * m₂) := by
  constructor
  · intro d₁ d₂ avg tti v p havg htti hd
    have hkm := vehicle_cost_per_km_pos v
    have hhr := vehicle_cost_per_hour_pos v
    have hf := vehicle_time_factor_pos v
    have hs := priority_surcharge_pos p
    have havg' : avg ≠ 0 := ne_of_gt havg
    have key : ∀ d : ℚ, total_cost d avg tti v p =
        d * ((vehicle_cost_per_km v +
          tti * vehicle_time_factor v * vehicle_cost_per_hour v / avg) *
            priority_surcharge p) := by
      intro d
      unfold total_cost estimated_cost distance_cost time_cost adjusted_minutes base_minutes
      field_simp
      ring
    rw [key d₁, key d₂]
    have hK : 0 < (vehicle_cost_per_km v +
        tti * vehicle_time_factor v * vehicle_cost_per_hour v / avg) *
          priority_surcharge p := by
      apply mul_pos _ hs
      have hnn : 0 ≤ tti * vehicle_time_factor v * vehicle_cost_per_hour v / avg :=
        div_nonneg
          (mul_nonneg (mul_nonneg htti (le_of_lt hf)) (le_of_lt hhr)) (le_of_lt havg)
      linarith
    exact mul_lt_mul_of_pos_right hd hK
  · intro d avg tti m₁ m₂ v hd havg htti hm
    have h1 : 0 < distance_cost d v := mul_pos hd (vehicle_cost_per_km_pos v)
    have h2 : 0 ≤ time_cost (adjusted_minutes d avg tti v) v := by
      unfold time_cost adjusted_minutes base_minutes
      apply mul_nonneg _ (le_of_lt (vehicle_cost_per_hour_pos v))
      apply div_nonneg _ (by norm_num : (0 : ℚ) ≤ 60)
      have hda : (0 : ℚ) ≤ d / avg := div_nonneg (le_of_lt hd) (le_of_lt havg)
      exact mul_nonneg
        (mul_nonneg (mul_nonneg hda (by norm_num : (0 : ℚ) ≤ 60)) htti)
        (le_of_lt (vehicle_time_factor_pos v))
    have hX : 0 < distance_cost d v + time_cost (adjusted_minutes d avg tti v) v := by
      linarith
    exact mul_lt_mul_of_pos_left hm hX

theorem c8_cost_strictly_monotone_witness :
    total_cost 5 20 1 ("LCV") ("Standard (4h window)") <
      total_cost 6 20 1 ("LCV") ("Standard (4h window)") ∧
    (distance_cost 5 ("LCV") + time_cost (adjusted_minutes 5 20 1 ("LCV")) ("LCV")) * 1 <
      (distance_cost 5 ("LCV") + time_cost (adjusted_minutes 5 20 1 ("LCV")) ("LCV")) * 2 :=
  ⟨c8_cost_strictly_monotone.1 5 6 20 1 ("LCV") ("Standard (4h window)")
      (by norm_num) (by norm_num) (by norm_num),
   c8_cost_strictly_monotone.2 5 20 1 1 2 ("LCV")
      (by norm_num) (by norm_num) (by norm_num) (by norm_num)⟩

theorem compute_distance_km_ge_half (g : String → String → ℚ) (s e : String) (x : ℚ)
    (h : compute_distance_km g s e = some x) : 1 / 2 ≤ x := by
  unfold compute_distance_km at h
  by_cases hlt : g s e / 1000 < 1 / 2
  · rw [if_pos hlt, Option.some_inj] at h
    rw [← h]
    norm_num
  · rw [if_neg hlt, Option.some_inj] at h
    rw [← h]
    linarith [not_lt.mp hlt]

theorem compute_distance_km_isSome (g : String → String → ℚ) (s e : String) :
    ∃ x, compute_distance_km g s e = some x := by
  unfold compute_distance_km
  by_cases hlt : g s e / 1000 < 1 / 2
  · exact ⟨7 / 2, if_pos hlt⟩
  · exact ⟨g s e / 1000, if_neg hlt⟩

theorem trip_distance_km_ge_half (g : String → String → ℚ) (s e : String) :
    1 / 2 ≤ trip_distance_km g s e := by
  obtain ⟨x, hx⟩ := compute_distance_km_isSome g s e
  have hge := compute_distance_km_ge_half g s e x hx
  rw [trip_distance_km, hx, pyOrFloat]
  have hne : ¬x = 0 := by
    intro h0
    rw [h0] at hge
    norm_num at hge
  rw [if_neg hne]
  exact hge

/-- C10: the distance fed into the cost is never below 0.5 km — raw
geodesic distances under 0.5 km (the identical-endpoint case included)
are replaced by 3.5 km, a missing distance by 6.5 km — so the base
distance cost is strictly positive. -/
theorem c10_distance_floored :
    (∀ (g : String → String → ℚ) (s e : String) (x : ℚ),
        compute_distance_km g s e = some x → 1 / 2 ≤ x) ∧
    (∀ (g : String → String → ℚ) (s e : String),
        g s e / 1000 < 1 / 2 → compute_distance_km g s e = some (7 / 2)) ∧
    (∀ (g : String → String → ℚ) (s e : String),
        g s e = 0 → compute_distance_km g s e = some (7 / 2)) ∧
    pyOrFloat none (13 / 2) = 13 / 2 ∧
    (∀ (g : String → String → ℚ) (s e : String), 1 / 2 ≤ trip_distance_km g s e) ∧
    (∀ (g : String → String → ℚ) (s e v : String),
        0 < distance_cost (trip_distance_km g s e) v) := by
  refine ⟨compute_distance_km_ge_half, ?_, ?_, rfl, trip_distance_km_ge_half, ?_⟩
  · intro g s e h
    unfold compute_distance_km
    rw [if_pos h]
  · intro g s e h
    unfold compute_distance_km
    rw [h]
    norm_num
  · intro g s e v
    have hpos : 0 < trip_distance_km g s e :=
      lt_of_lt_of_le (by norm_num) (trip_distance_km_ge_half g s e)
    exact mul_pos hpos (vehicle_cost_per_km_pos v)

theorem c10_distance_floored_witness :
    1 / 2 ≤ (7 : ℚ) / 2 ∧
    compute_distance_km (fun _ _ => 0) ("M.G. Road") ("M.G. Road") = some (7 / 2) ∧
    pyOrFloat none (13 / 2) = 13 / 2 ∧
    1 / 2 ≤ trip_distance_km (fun _ _ => 0) ("M.G. Road") ("M.G. Road") ∧
    0 < distance_cost (trip_distance_km (fun _ _ => 0) ("M.G. Road") ("M.G. Road")) ("LCV") :=
  ⟨c10_distance_floored.1 (fun _ _ => 0) ("M.G. Road") ("M.G. Road") (7 / 2)
      (by norm_num [compute_distance_km]),
   c10_distance_floored.2.2.1 (fun _ _ => 0) ("M.G. Road") ("M.G. Road") rfl,
   c10_distance_floored.2.2.2.1,
   c10_distance_floored.2.2.2.2.1 (fun _ _ => 0) ("M.G. Road") ("M.G. Road"),
   c10_distance_floored.2.2.2.2.2 (fun _ _ => 0) ("M.G. Road") ("M.G. Road") ("LCV")⟩

/-- C3: `check_route` returns exactly the active rules whose `applies` is
true; the two endpoints' results are merged as a union deduplicated by
rule name — every merged rule matched some endpoint, every matched rule
is represented by name, and the merged names are distinct. -/
theorem c3_check_route_union :
    (∀ (ctx : RouteContext) (r : Rule),
        r ∈ check_route ctx ↔ r ∈ ACTIVE_RULES ∧ r.applies ctx = true) ∧
    (∀ (s d : RouteContext) (r : Rule), r ∈ active_restrictions s d →
        r ∈ check_route s ∨ r ∈ check_route d) ∧
    (∀ (s d : RouteContext) (r : Rule), r ∈ check_route s ∨ r ∈ check_route d →
        ∃ r' ∈ active_restrictions s d, r'.name = r.name) ∧
    (∀ s d : RouteContext, ((active_restrictions s d).map Rule.name).Nodup) := by
  refine ⟨?_, ?_, ?_, ?_⟩
  · intro ctx r
    simp [check_route, List.mem_filter]
  · intro s d r hr
    unfold active_restrictions rules_by_name at hr
    simp only [List.mem_map] at hr
    obtain ⟨p, hp, hps⟩ := hr
    rcases mem_foldl_rules _ [] p hp with h | h
    · cases h
    · rw [← hps]
      exact List.mem_append.mp h.1
  · intro s d r hr
    have hmem : r ∈ check_route s ++ check_route d := List.mem_append.mpr hr
    have hsome := foldl_rules_complete (check_route s ++ check_route d) r hmem []
    obtain ⟨v, hv⟩ := Option.isSome_iff_exists.mp hsome
    have hvmem := dictGet_some_mem _ _ _ hv
    refine ⟨v, ?_, ?_⟩
    · unfold active_restrictions rules_by_name
      exact List.mem_map.mpr ⟨(r.name, v), hvmem, rfl⟩
    · rcases mem_foldl_rules _ [] (r.name, v) hvmem with h | h
      · cases h
      · exact h.2.symm
  · intro s d
    unfold active_restrictions
    have hkeys := foldl_rules_nodup (check_route s ++ check_route d) [] (by simp)
    have hagree : ∀ p ∈ rules_by_name (check_route s ++ check_route d),
        p.2.name = p.1 := by
      intro p hp
      rcases mem_foldl_rules _ [] p hp with h | h
      · cases h
      · exact h.2.symm
    rw [List.map_map]
    have hmaps : (rules_by_name (check_route s ++ check_route d)).map (Rule.name ∘ Prod.snd) =
        (rules_by_name (check_route s ++ check_route d)).map Prod.fst :=
      List.map_congr_left hagree
    rw [hmaps]
    exact hkeys

theorem c3_check_route_union_witness :
    (CBD_HEAVY_VEHICLE_BAN ∈ check_route cbdCtx ↔
      CBD_HEAVY_VEHICLE_BAN ∈ ACTIVE_RULES ∧ CBD_HEAVY_VEHICLE_BAN.applies cbdCtx = true) ∧
    (CBD_HEAVY_VEHICLE_BAN ∈ check_route cbdCtx ∨ CBD_HEAVY_VEHICLE_BAN ∈ check_route cbdCtx) ∧
    (∃ r' ∈ active_restrictions cbdCtx cbdCtx, r'.name = CBD_HEAVY_VEHICLE_BAN.name) ∧
    ((active_restrictions cbdCtx cbdCtx).map Rule.name).Nodup :=
  ⟨c3_check_route_union.1 cbdCtx CBD_HEAVY_VEHICLE_BAN,
   c3_check_route_union.2.1 cbdCtx cbdCtx CBD_HEAVY_VEHICLE_BAN (by decide),
   c3_check_route_union.2.2.1 cbdCtx cbdCtx CBD_HEAVY_VEHICLE_BAN (Or.inl (by decide)),
   c3_check_route_union.2.2.2 cbdCtx cbdCtx⟩

/-- C2 (counterexample): at the spec's own end-to-end scenario — the CBD
heavy vehicle curfew matching the M.G. Road / MHCV / 09:00 / Monday
context — the request is indeed blocked, but the prediction work HAS been
performed before the rule check, contradicting the claim that no
prediction work is performed on a blocked request. -/
theorem c2_counterexample_prediction_runs_before_rule_check :
    CBD_HEAVY_VEHICLE_BAN.applies cbdCtx = true ∧
    (runPipeline cbdInput).2 = Outcome.blocked [CBD_HEAVY_VEHICLE_BAN] ∧
    Step.predict ∈ (runPipeline cbdInput).1 := by
  refine ⟨by decide, by decide, by decide⟩

/-- C2 (amended): when the rule check yields a non-empty set, the request
short-circuits after that check — the caller receives the full
deduplicated set of violated rules, no cost work is performed and no trip
is produced — but the two predictions have already run before the rule
check. -/
theorem c2_blocked_short_circuits_cost_not_prediction (inp : PipelineInput)
    (h1 : inp.start_found = true) (h2 : inp.dest_found = true)
    (h3 : active_restrictions inp.start_ctx inp.dest_ctx ≠ []) :
    (runPipeline inp).2 = Outcome.blocked (active_restrictions inp.start_ctx inp.dest_ctx) ∧
    Step.costCompose ∉ (runPipeline inp).1 ∧
    Step.tripProduce ∉ (runPipeline inp).1 ∧
    Step.predict ∈ (runPipeline inp).1 := by
  have hae : (active_restrictions inp.start_ctx inp.dest_ctx).isEmpty = false := by
    rw [Bool.eq_false_iff]
    intro hh
    exact h3 (List.isEmpty_iff.mp hh)
  unfold runPipeline
  simp [h1, h2, hae]

theorem c2_blocked_short_circuits_cost_not_prediction_witness :
    (runPipeline cbdInput).2 =
      Outcome.blocked (active_restrictions cbdInput.start_ctx cbdInput.dest_ctx) ∧
    Step.costCompose ∉ (runPipeline cbdInput).1 ∧
    Step.tripProduce ∉ (runPipeline cbdInput).1 ∧
    Step.predict ∈ (runPipeline cbdInput).1 :=
  c2_blocked_short_circuits_cost_not_prediction cbdInput rfl rfl (by decide)

/-- A one-row corridor used to exercise C6. -/
def wRow : TrafficRow :=
  { areaName := "Hebbal", roadName := "Hebbal Flyover", dateStamp := 10, dateMonth := 3
  , cols := [] }

/-- A second row of the same corridor with the same timestamp as `wRow`,
used to exhibit the implementation-defined tie in C6. -/
def wRowTie : TrafficRow :=
  { areaName := "Hebbal", roadName := "Hebbal Flyover", dateStamp := 10, dateMonth := 4
  , cols := [] }

/-- The payload `build_feature_payload` produces for snapshot `wRow` with
an empty schema and query weekday 6. -/
def wPayload : List (String × PVal) :=
  [("Area Name", PVal.strV ("Hebbal")), ("Road/Intersection Name", PVal.strV ("Hebbal Flyover")),
   ("day_of_week", PVal.intV 6), ("month", PVal.intV 3), ("is_weekend", PVal.intV 1)]

/-- A two-element `Date` sort that satisfies everything the
`sort_values("Date")` contract promises — the output is a date-ascending
permutation of the input — but puts the later-positioned row first when
the dates tie, as an unstable sort may. -/
def swapTieSort : List TrafficRow → List TrafficRow
  | [a, b] => if b.dateStamp ≤ a.dateStamp then [b, a] else [a, b]
  | l => l

/-- C6 (counterexample): on a corridor of two rows with equal timestamps,
a sort implementation meeting the full `sort_values` contract makes the
builder select the earlier-positioned row `wRow`, not the later original
row `wRowTie` that a stable sort would keep; the claim's "ties broken by
original row order (stable sort)" is therefore not a guarantee of the
code, whose default quicksort is unstable. -/
theorem c6_counterexample_tie_not_stable :
    IsDateSortOf
      (swapTieSort ([wRow, wRowTie].filter
        (fun r => r.areaName == "Hebbal" && r.roadName == "Hebbal Flyover")))
      ([wRow, wRowTie].filter
        (fun r => r.areaName == "Hebbal" && r.roadName == "Hebbal Flyover")) ∧
    wRow.dateStamp = wRowTie.dateStamp ∧
    wRow ≠ wRowTie ∧
    build_feature_payload swapTieSort [wRow, wRowTie] [] ("Hebbal") ("Hebbal Flyover") 6 =
      some (wPayload, wRow) :=
  ⟨⟨by decide, by decide⟩, rfl, by decide, by decide⟩

/-- C6 (amended): for every sort implementation satisfying the
`sort_values("Date")` contract, the feature builder returns an explicit
`none` exactly when no row matches the (area, road) pair (distinguishable
from a valid-but-zero payload); otherwise it selects a snapshot with the
latest timestamp — which one among equal latest timestamps is
implementation-defined by the unstable default sort — and the payload
takes area, road and day-of-week from the query, month from the
snapshot's date, and is-weekend from day-of-week at least 5. -/
theorem c6_feature_builder_contract (sortImpl : List TrafficRow → List TrafficRow)
    (df : List TrafficRow) (fn : List String) (area road : String) (w : ℕ)
    (hsort : IsDateSortOf
      (sortImpl (df.filter (fun r => r.areaName == area && r.roadName == road)))
      (df.filter (fun r => r.areaName == area && r.roadName == road))) :
    (build_feature_payload sortImpl df fn area road w = none ↔
      df.filter (fun r => r.areaName == area && r.roadName == road) = []) ∧
    (∀ (payload : List (String × PVal)) (snapshot : TrafficRow),
        build_feature_payload sortImpl df fn area road w = some (payload, snapshot) →
          snapshot ∈ df.filter (fun r => r.areaName == area && r.roadName == road) ∧
          (∀ r ∈ df.filter (fun r => r.areaName == area && r.roadName == road),
              r.dateStamp ≤ snapshot.dateStamp) ∧
          dictGet payload ("Area Name") = some (PVal.strV area) ∧
          dictGet payload ("Road/Intersection Name") = some (PVal.strV road) ∧
          dictGet payload ("day_of_week") = some (PVal.intV w) ∧
          dictGet payload ("month") = some (PVal.intV snapshot.dateMonth) ∧
          dictGet payload ("is_weekend") =
            some (PVal.intV (if 5 ≤ w then 1 else 0))) := by
  obtain ⟨hperm, hpair⟩ := hsort
  constructor
  · simp only [build_feature_payload]
    cases hlast : (sortImpl (df.filter
        (fun r => r.areaName == area && r.roadName == road))).getLast? with
    | none =>
        have hnil := List.getLast?_eq_none_iff.mp hlast
        constructor
        · intro _
          exact (perm_eq_nil_iff hperm).mp hnil
        · intro _
          trivial
    | some snap =>
        constructor
        · intro h
          cases h
        · intro h
          have hnil := (perm_eq_nil_iff hperm).mpr h
          rw [hnil] at hlast
          cases hlast
  · intro payload snapshot h
    simp only [build_feature_payload] at h
    cases hlast : (sortImpl (df.filter
        (fun r => r.areaName == area && r.roadName == road))).getLast? with
    | none =>
        rw [hlast] at h
        cases h
    | some snap =>
        rw [hlast] at h
        simp only [Option.some_inj, Prod.mk.injEq] at h
        obtain ⟨hp, hs⟩ := h
        subst hs
        subst hp
        refine ⟨hperm.mem_iff.mp (getLast?_mem_self _ _ hlast),
          fun r hr => pairwise_le_getLast _ _ hpair hlast r (hperm.mem_iff.mpr hr),
          ?_, ?_, ?_, ?_, ?_⟩
        · rw [dictGet_dictSet_ne _ _ _ _ (by decide), dictGet_dictSet_ne _ _ _ _ (by decide),
            dictGet_dictSet_ne _ _ _ _ (by decide), dictGet_dictSet_ne _ _ _ _ (by decide),
            dictGet_dictSet_same]
        · rw [dictGet_dictSet_ne _ _ _ _ (by decide), dictGet_dictSet_ne _ _ _ _ (by decide),
            dictGet_dictSet_ne _ _ _ _ (by decide), dictGet_dictSet_same]
        · rw [dictGet_dictSet_ne _ _ _ _ (by decide), dictGet_dictSet_ne _ _ _ _ (by decide),
            dictGet_dictSet_same]
        · rw [dictGet_dictSet_ne _ _ _ _ (by decide), dictGet_dictSet_same]
        · rw [dictGet_dictSet_same]

theorem c6_feature_builder_contract_witness :
    (build_feature_payload (fun l => l) [wRow] [] ("Hebbal") ("Hebbal Flyover") 6 = none ↔
      [wRow].filter (fun r => r.areaName == "Hebbal" && r.roadName == "Hebbal Flyover") = []) ∧
    (wRow ∈ [wRow].filter (fun r => r.areaName == "Hebbal" && r.roadName == "Hebbal Flyover") ∧
     (∀ r ∈ [wRow].filter (fun r => r.areaName == "Hebbal" && r.roadName == "Hebbal Flyover"),
        r.dateStamp ≤ wRow.dateStamp) ∧
     dictGet wPayload ("Area Name") = some (PVal.strV ("Hebbal")) ∧
     dictGet wPayload ("Road/Intersection Name") = some (PVal.strV ("Hebbal Flyover")) ∧
     dictGet wPayload ("day_of_week") = some (PVal.intV 6) ∧
     dictGet wPayload ("month") = some (PVal.intV wRow.dateMonth) ∧
     dictGet wPayload ("is_weekend") = some (PVal.intV (if 5 ≤ 6 then 1 else 0))) :=
  have h := c6_feature_builder_contract (fun l => l) [wRow] [] ("Hebbal") ("Hebbal Flyover") 6
    ⟨by decide, by decide⟩
  ⟨h.1, h.2 wPayload wRow (by decide)⟩
